import Mathlib

/-!
Verification development for the Fluid-jusdnce repository: a shallow embedding
of its generation service (src/unnamed/part_001, the complete version of
src/services/gemini.ts), its preview/director component (src/unnamed/part_000),
and theorems settling the frozen claims about them.

Remote calls, canvas drawing and random draws are modelled as explicit
environment inputs; all control flow, arithmetic and string manipulation is
translated directly from the TypeScript source.
-/

/-! ## Domain data model (src/types as consumed by the source files) -/

inductive EnergyLevel
  | low
  | mid
  | high
deriving DecidableEq, Repr

inductive FrameType
  | body
  | closeup
deriving DecidableEq, Repr

inductive SheetRole
  | base
  | alt
  | flourish
deriving DecidableEq, Repr

inductive SubjectCategory
  | CHARACTER
  | TEXT
  | SYMBOL
deriving DecidableEq, Repr

structure GeneratedFrame where
  url : String
  pose : String
  energy : EnergyLevel
  type : FrameType
  role : SheetRole
deriving DecidableEq, Repr

/-! ## String utilities modelling the JavaScript string operations used -/

/-- The chars of the first list are the leading chars of the second. -/
def listStart : List Char → List Char → Bool
  | [], _ => true
  | _ :: _, [] => false
  | a :: as, b :: bs => a == b && listStart as bs

/-- JS String.prototype.includes: the pattern occurs contiguously in the string. -/
def strIncludes (s pat : String) : Bool :=
  (List.range (s.toList.length + 1)).any fun k => listStart pat.toList (s.toList.drop k)

/-- JS String.prototype.toLowerCase restricted to the per-char lowering used here. -/
def strLower (s : String) : String :=
  String.mk (s.toList.map Char.toLower)

/-- Helper for replaceLeftRight: scan left to right for the first occurrence of
the pattern left or the pattern right and splice in the replacement. -/
def replaceLeftRightAux (repl : List Char) : List Char → List Char
  | [] => []
  | c :: rest =>
    if listStart "left".toList (c :: rest) then repl ++ (c :: rest).drop 4
    else if listStart "right".toList (c :: rest) then repl ++ (c :: rest).drop 5
    else c :: replaceLeftRightAux repl rest

/-- JS s.replace with the one-alternation regex used at part_001 line 321:
replace the first occurrence of left or right with the replacement. -/
def replaceLeftRight (s repl : String) : String :=
  String.mk (replaceLeftRightAux repl.toList s.toList)

/-- The string interpolation of a SheetRole value as JS template literals produce it. -/
def roleName : SheetRole → String
  | .base => "base"
  | .alt => "alt"
  | .flourish => "flourish"

/-! ## Generation service (src/unnamed/part_001) -/

/-- One frame-index step of generateSingleSheet's processPromises closure
(part_001 lines 286-329): classify energy by row, roll the closeup chance on
row 3 of CHARACTER sheets, name the pose, and append the mirrored duplicate for
CHARACTER body frames on rows 1 and 2. frameData is the sliced cell's data URL,
closeupRoll the outcome of the Math.random() greater-than-0.6 draw at this
index, and mirrored the mirrorFrame output per input data URL. -/
def frameGroup (role : SheetRole) (category : SubjectCategory) (i : Nat)
    (frameData : String) (closeupRoll : Bool) (mirrored : String → String) :
    List GeneratedFrame :=
  let cols := 4
  let row := i / cols
  let energy : EnergyLevel :=
    if row = 0 then .low
    else if row = 1 then .mid
    else if row = 2 then .mid
    else if row = 3 then .high
    else .mid
  let ftype : FrameType :=
    if row = 3 ∧ category = .CHARACTER ∧ closeupRoll = true then .closeup else .body
  let poseName :=
    roleName role ++ "_" ++ toString i ++
      (if category = .CHARACTER then
        (if row = 1 then "_left" else if row = 2 then "_right" else "")
      else "")
  let first : GeneratedFrame :=
    { url := frameData, pose := poseName, energy := energy, type := ftype, role := role }
  if category = .CHARACTER ∧ ftype = .body ∧ (row = 1 ∨ row = 2) then
    let mirrorSuffix := if strIncludes poseName "left" then "right_mirror" else "left_mirror"
    [first,
      { url := mirrored frameData, pose := replaceLeftRight poseName mirrorSuffix,
        energy := energy, type := ftype, role := role }]
  else
    [first]

/-- What the environment supplies when one remote sheet call succeeds end to
end (response carries an inline image and sliceSpriteSheet resolves):
sheetData is the base64 payload found in the response, rawFrame i the data URL
sliced for grid index i, closeupRoll i the Math.random() greater-than-0.6 draw
at index i, and mirrored the mirrorFrame output per input data URL. -/
structure SheetSuccess where
  sheetData : String
  rawFrame : Nat → String
  closeupRoll : Nat → Bool
  mirrored : String → String

/-- One remote sheet request as issued: its role and, when present, the style
reference sheet (a data URL) sent as the second inline image. -/
structure SheetRequest where
  role : SheetRole
  styleRef : Option String
deriving DecidableEq, Repr

/-- The remote service plus browser environment: none models any failure inside
generateSingleSheet's try block (transport error, no candidate, no inline
image, slicing rejection), which the catch turns into an empty result. -/
abbrev GenEnv := SheetRequest → Option SheetSuccess

/-- generateSingleSheet (part_001 lines 222-338): issue one request; on any
failure return no frames and no sheet; on success slice the 4x4 sheet and
process all rows*cols = 16 cells through frameGroup. -/
def generateSingleSheet (role : SheetRole) (category : SubjectCategory)
    (styleRef : Option String) (env : GenEnv) :
    List GeneratedFrame × Option String :=
  match env { role := role, styleRef := styleRef } with
  | none => ([], none)
  | some s =>
      ((List.range (4 * 4)).flatMap fun i =>
          frameGroup role category i (s.rawFrame i) (s.closeupRoll i) s.mirrored,
        some s.sheetData)

/-- Category resolution of generateDanceFrames (part_001 lines 351-357). -/
def resolveCategory (explicitCategory : Option SubjectCategory) (motionPrompt : String) :
    SubjectCategory :=
  match explicitCategory with
  | some c => c
  | none =>
      let low := strLower motionPrompt
      if strIncludes low "text" = true ∨ strIncludes low "font" = true then .TEXT
      else if strIncludes low "logo" = true ∨ strIncludes low "icon" = true then .SYMBOL
      else .CHARACTER

/-- Result of one generateDanceFrames call together with its remote request
trace: the batches are awaited strictly in order, and the requests inside one
batch are issued concurrently (the Promise.all fan-out). -/
structure GenOutcome where
  result : Except String (List GeneratedFrame × SubjectCategory)
  trace : List (List SheetRequest)

/-- generateDanceFrames (part_001 lines 340-407): await the base sheet; fail
hard when it yields zero frames or no sheet image; otherwise fan out the
expansion requests per mode (super: alt and flourish concurrently, quality:
alt alone, turbo: none), each carrying the base sheet data URL as style
reference, and append every expansion result that returned frames. -/
def generateDanceFrames (motionPrompt : String) (useTurbo superMode : Bool)
    (explicitCategory : Option SubjectCategory) (env : GenEnv) : GenOutcome :=
  let category := resolveCategory explicitCategory motionPrompt
  let baseReq : SheetRequest := { role := .base, styleRef := none }
  let baseResult := generateSingleSheet .base category none env
  if baseResult.1.length = 0 ∨ baseResult.2 = none then
    { result := .error "Base generation failed.", trace := [[baseReq]] }
  else
    let baseRef := "data:image/jpeg;base64," ++ baseResult.2.getD ""
    let expansionReqs : List SheetRequest :=
      if superMode = true then
        [{ role := .alt, styleRef := some baseRef },
          { role := .flourish, styleRef := some baseRef }]
      else if useTurbo = false then
        [{ role := .alt, styleRef := some baseRef }]
      else []
    let expansionResults := expansionReqs.map fun r =>
      generateSingleSheet r.role category r.styleRef env
    let allFrames := expansionResults.foldl
      (fun acc res => if res.1.length > 0 then acc ++ res.1 else acc) baseResult.1
    let trace := [baseReq] :: (if expansionReqs.isEmpty then [] else [expansionReqs])
    if allFrames.length = 0 then
      { result := .error "Generation produced no valid frames.", trace := trace }
    else
      { result := .ok (allFrames, category), trace := trace }

/-- A concrete always-successful environment used to instantiate theorems. -/
def sheetSuccess1 : SheetSuccess :=
  { sheetData := "S", rawFrame := fun _ => "F", closeupRoll := fun _ => false,
    mirrored := fun u => "M" ++ u }

/-- The environment answering every request with sheetSuccess1. -/
def envOk : GenEnv := fun _ => some sheetSuccess1

/-- The environment failing every request. -/
def envFail : GenEnv := fun _ => none

/-! ## Deterministic slicer geometry (part_001 lines 79-122) -/

/-- The source rectangle (sx, sy, sw, sh) that sliceSpriteSheet crops for each
cell of the 4x4 grid, in the row-major push order of its two nested loops:
largest centered square, cell = size/4, 8 percent inset per side. w and h are
the decoded sheet image's dimensions. -/
def sliceSpriteSheetRects (w h : ℚ) : List (ℚ × ℚ × ℚ × ℚ) :=
  let rows : Nat := 4
  let cols : Nat := 4
  let size := min w h
  let startX := (w - size) / 2
  let startY := (h - size) / 2
  let rawCellW := size / (cols : ℚ)
  let rawCellH := size / (rows : ℚ)
  let insetFactor : ℚ := 8 / 100
  let insetX := rawCellW * insetFactor
  let insetY := rawCellH * insetFactor
  let drawW := rawCellW * (1 - 2 * insetFactor)
  let drawH := rawCellH * (1 - 2 * insetFactor)
  (List.range rows).flatMap fun r =>
    (List.range cols).map fun c =>
      (startX + (c : ℚ) * rawCellW + insetX, startY + (r : ℚ) * rawCellH + insetY, drawW, drawH)

/-- The output canvas dimensions every sliced frame is drawn into:
canvas.width = Math.floor(drawW), canvas.height = Math.floor(drawH). -/
def sliceSpriteSheetOutSize (w h : ℚ) : ℤ × ℤ :=
  let rows := 4
  let cols := 4
  let size := min w h
  let drawW := size / (cols : ℚ) * (1 - 2 * (8 / 100))
  let drawH := size / (rows : ℚ) * (1 - 2 * (8 / 100))
  (⌊drawW⌋, ⌊drawH⌋)

/-! ## Preview frame pools (src/unnamed/part_000 lines 110-131) -/

structure EnergyPools where
  low : List String
  mid : List String
  high : List String
  closeups : List String
deriving DecidableEq, Repr

/-- One frame of the Sort Frames forEach: a closeup frame's pose goes to the
closeup list, a body frame's pose is pushed onto its energy pool. -/
def sortStep (p : EnergyPools) (f : GeneratedFrame) : EnergyPools :=
  if f.type = .closeup then { p with closeups := p.closeups ++ [f.pose] }
  else
    match f.energy with
    | .low => { p with low := p.low ++ [f.pose] }
    | .mid => { p with mid := p.mid ++ [f.pose] }
    | .high => { p with high := p.high ++ [f.pose] }

/-- The Sort Frames pass of Step4Preview: distribute each loaded frame's pose
into the closeup list or its energy pool, then apply the three fallbacks in
order: an empty low pool takes the first loaded frame's pose when that frame is
a body frame; an empty mid pool copies low; an empty high pool copies mid. -/
def sortIntoPools (framesToLoad : List GeneratedFrame) : EnergyPools :=
  let sorted := framesToLoad.foldl sortStep
    { low := [], mid := [], high := [], closeups := [] }
  let afterLowFix :=
    match framesToLoad with
    | [] => sorted
    | f0 :: _ =>
        if sorted.low = [] ∧ f0.type = .body then
          { sorted with low := sorted.low ++ [f0.pose] }
        else sorted
  let afterMidFix :=
    if afterLowFix.mid = [] then { afterLowFix with mid := afterLowFix.low } else afterLowFix
  if afterMidFix.high = [] then { afterMidFix with high := afterMidFix.mid } else afterMidFix

/-! ## Audio engine state (part_000 lines 179-299) -/

/-- The slice of component state deciding which branch computes the per-tick
audio bands: whether playback is on, whether initAudioContext has created the
analyser node, whether the microphone is active, and whether an uploaded audio
file URL is present. -/
structure AudioUIState where
  isPlaying : Bool
  analyserPresent : Bool
  micActive : Bool
  audioUrl : Bool
deriving DecidableEq, Repr

/-- The user-facing events that touch that state: the play button, the mic
button (with the permission outcome), and a change of the uploaded audio URL. -/
inductive AudioEvent
  | togglePlay
  | toggleMic (granted : Bool)
  | audioUrlChange (present : Bool)
deriving DecidableEq, Repr

/-- State transition per event, following togglePlay (lines 231-265), toggleMic
(lines 202-229) and the audioPreviewUrl effect (lines 179-185). Every path of
togglePlay and toggleMic first runs initAudioContext, which creates the
analyser; a denied mic permission leaves playback and mic state untouched. -/
def audioStep (s : AudioUIState) (e : AudioEvent) : AudioUIState :=
  match e with
  | .togglePlay =>
      { s with analyserPresent := true, isPlaying := !s.isPlaying }
  | .toggleMic granted =>
      if s.micActive then
        { s with analyserPresent := true, micActive := false }
      else if granted then
        { s with analyserPresent := true, micActive := true, isPlaying := true }
      else
        { s with analyserPresent := true }
  | .audioUrlChange present =>
      { s with isPlaying := false, audioUrl := present }

/-- The component's state when Step4Preview mounts: not playing, no audio
context or analyser yet, no microphone; an audio file URL may or may not be
present. -/
def audioInit (b : Bool) : AudioUIState :=
  { isPlaying := false, analyserPresent := false, micActive := false, audioUrl := b }

/-- The state reached by pressing play once from the initial state with no
audio file: playing, analyser created by initAudioContext, no mic, no file. -/
def audioPlayingNoSource : AudioUIState :=
  { isPlaying := true, analyserPresent := true, micActive := false, audioUrl := false }

/-- JS remainder for the nonnegative operands used by the fallback clock. -/
def jsMod (a b : ℚ) : ℚ := a - b * ⌊a / b⌋

/-- The Fallback Clock branch of the animate loop (part_000 lines 290-299):
time is the tick timestamp in milliseconds, rand the tick's Math.random()
draw in the unit interval. -/
def fallbackClock (time rand : ℚ) : ℚ × ℚ × ℚ :=
  let bpm : ℚ := 124
  let beatDur := 60 / bpm
  let now := time / 1000
  let beatPos := jsMod now beatDur / beatDur
  let bass := (max 0 (1 - beatPos * 4)) ^ 3
  let mid := if jsMod now (beatDur * 2) > beatDur ∧ beatPos < 2 / 10 then (6 : ℚ) / 10 else 0
  let high := rand * (1 / 10)
  (bass, mid, high)

/-- Tuned-range bass of the analyser branch: mean of bins 0-7 over 255. -/
def spectrumBass (d : Nat → ℚ) : ℚ := ((List.range 8).map d).sum / 8 / 255

/-- Tuned-range mid of the analyser branch: mean of bins 15-59 over 255. -/
def spectrumMid (d : Nat → ℚ) : ℚ := ((List.range 45).map fun k => d (k + 15)).sum / 45 / 255

/-- Tuned-range high of the analyser branch: mean of bins 100-199 over 255. -/
def spectrumHigh (d : Nat → ℚ) : ℚ := ((List.range 100).map fun k => d (k + 100)).sum / 100 / 255

/-- The Audio Analysis step of one animate tick (part_000 lines 279-299):
bands from the analyser spectrum when playing with an analyser node present,
else from the fallback clock when playing with no audio file and no mic,
else zero. -/
def animateAudioBands (s : AudioUIState) (spectrum : Nat → ℚ) (time rand : ℚ) :
    ℚ × ℚ × ℚ :=
  if s.isPlaying = true ∧ s.analyserPresent = true then
    (spectrumBass spectrum, spectrumMid spectrum, spectrumHigh spectrum)
  else if s.isPlaying = true ∧ s.audioUrl = false ∧ s.micActive = false then
    fallbackClock time rand
  else (0, 0, 0)

/-! ## Choreography brain (part_000 lines 301-430) -/

inductive MoveDir
  | left
  | right
deriving DecidableEq, Repr

def MoveDir.flip : MoveDir → MoveDir
  | .left => .right
  | .right => .left

def MoveDir.str : MoveDir → String
  | .left => "left"
  | .right => "right"

inductive TransitionMode
  | CUT
  | FLOW
deriving DecidableEq, Repr

/-- The mutable refs the brain section reads and writes. -/
structure BrainState where
  lastSwitchTime : ℚ
  lastBeatTime : ℚ
  lastSnareTime : ℚ
  beatCounter : Nat
  burstModeUntil : ℚ
  targetPose : String
  previousPose : String
  transitionStart : ℚ
  transitionDuration : ℚ
  transitionMode : TransitionMode
  lastMoveDirection : MoveDir
deriving DecidableEq, Repr

/-- One tick's inputs to the brain: timestamp, audio bands, playback flag, the
frame pools, the stutter slider, and the tick's Math.random() draws (direction
repeat, closeup selection, pose pick, stutter roll, burst pick). -/
structure BrainInput where
  now : ℚ
  bass : ℚ
  mid : ℚ
  high : ℚ
  isPlaying : Bool
  lowPool : List String
  midPool : List String
  highPool : List String
  closeups : List String
  stutterChance : ℚ
  rDir : ℚ
  rCloseup : ℚ
  rPose : ℚ
  rStutter : ℚ
  rBurst : ℚ

/-- Math.floor(rand * pool.length) for rand in the unit interval. -/
def pickIndex (rand : ℚ) (len : Nat) : Nat := (⌊rand * (len : ℚ)⌋).toNat

/-- pool[Math.floor(Math.random() * pool.length)]. -/
def pickPose (rand : ℚ) (pool : List String) : String :=
  pool.getD (pickIndex rand pool.length) ""

/-- Branch A of the brain, the standard beat hit (part_000 lines 319-393):
stamp the beat and switch times, advance the 4-beat pattern counter, choose
the next direction and pool, and when the pick differs from the current target
start the cut or flow transition the pattern dictates. The camera impulses of
this branch touch no brain state. -/
def brainBeatBranch (s : BrainState) (inp : BrainInput) : BrainState :=
  let now := inp.now
  let s1 := { s with lastBeatTime := now, lastSwitchTime := now,
                     beatCounter := (s.beatCounter + 1) % 4 }
  let isPatternCut := (s.beatCounter + 1) % 4 < 2
  let isHardHit := inp.bass > 8 / 10
  let nextDir := if inp.rDir < 3 / 10 then s.lastMoveDirection else s.lastMoveDirection.flip
  let pool :=
    if (inp.mid > 6 / 10 ∨ inp.high > 6 / 10) ∧ inp.closeups ≠ [] ∧ inp.rCloseup > 1 / 2 then
      inp.closeups
    else if isHardHit then
      (if inp.highPool ≠ [] then inp.highPool else inp.midPool)
    else
      (if inp.midPool ≠ [] then inp.midPool else inp.lowPool)
  let dirPool := pool.filter fun p => strIncludes (strLower p) nextDir.str
  let finalPool := if dirPool ≠ [] then dirPool else pool
  if finalPool ≠ [] then
    let nextPose := pickPose inp.rPose finalPool
    if s.targetPose ≠ nextPose then
      { s1 with previousPose := s.targetPose, targetPose := nextPose,
                transitionStart := now, lastMoveDirection := nextDir,
                transitionMode := if isHardHit ∨ isPatternCut then .CUT else .FLOW,
                transitionDuration := if isHardHit ∨ isPatternCut then 0 else 240 }
    else s1
  else s1

/-- Branch B of the brain, the ambient idle fallback (part_000 lines 396-409):
stamp the switch time and morph to a random low-energy pose over 800 ms. -/
def brainIdleBranch (s : BrainState) (inp : BrainInput) : BrainState :=
  let now := inp.now
  let s1 := { s with lastSwitchTime := now }
  let pool := inp.lowPool
  if pool ≠ [] then
    let nextPose := pickPose inp.rPose pool
    if s.targetPose ≠ nextPose then
      { s1 with previousPose := s.targetPose, targetPose := nextPose,
                transitionStart := now, transitionMode := .FLOW,
                transitionDuration := 800 }
    else s1
  else s1

/-- Branch C of the brain, the snare and stutter roll (part_000 lines 412-418):
on a qualifying snare, stamp the snare time and, with probability stutter
chance over 100, open the 400 ms burst window. The scanline trigger touches no
brain state. -/
def brainSnareBranch (t : BrainState) (inp : BrainInput) : BrainState :=
  if inp.mid > 6 / 10 ∧ inp.now - t.lastSnareTime > 800 then
    let t1 := { t with lastSnareTime := inp.now }
    if inp.rStutter * 100 < inp.stutterChance then
      { t1 with burstModeUntil := inp.now + 400 }
    else t1
  else t

/-- Branch D of the brain, the burst-mode forced cut (part_000 lines 420-429):
stamp the switch time and hard-cut to a random high-energy pose (mid as
fallback), setting both current and previous pose to the pick. -/
def brainBurstBranch (t : BrainState) (inp : BrainInput) : BrainState :=
  let t1 := { t with lastSwitchTime := inp.now }
  let pool := if inp.highPool ≠ [] then inp.highPool else inp.midPool
  if pool ≠ [] then
    { t1 with targetPose := pickPose inp.rBurst pool,
              previousPose := pickPose inp.rBurst pool,
              transitionMode := .CUT, transitionDuration := 0 }
  else t1

/-- The Choreography Brain section of one animate tick (part_000 lines
301-430), returning the new state and whether this tick recorded a switch
(updated lastSwitchTimeRef). The burst guard and the lock window are computed
from the values read at the top of the tick, before any branch runs. -/
def animateBrain (s : BrainState) (inp : BrainInput) : BrainState × Bool :=
  let now := inp.now
  let isBurst := now < s.burstModeUntil
  let poseLockTime : ℚ := if isBurst then 60 else 150
  let canSwitch := now - s.lastSwitchTime > poseLockTime
  let isBeatHit := inp.bass > 35 / 100 ∧ canSwitch
  if inp.isPlaying = false then (s, false)
  else
    let step1 : BrainState × Bool :=
      if isBeatHit then (brainBeatBranch s inp, true)
      else if now - s.lastBeatTime > 1500 ∧ canSwitch ∧ now - s.lastSwitchTime > 1000 then
        (brainIdleBranch s inp, true)
      else (s, false)
    let sB := brainSnareBranch step1.1 inp
    if isBurst ∧ canSwitch then (brainBurstBranch sB inp, true)
    else (sB, step1.2)

/-! ## Per-tick frame rendering (part_000 lines 489-493) -/

/-- The bitmap lookup of renderFrame: poseImagesRef.current[pose] falling back
to poseImagesRef.current of the base pose when absent. -/
def chooseBitmap {Img : Type} (poseImages : String → Option Img) (pose : String) :
    Option Img :=
  match poseImages pose with
  | some img => some img
  | none => poseImages "base"

/-- The image renderFrame actually draws for a pose at an opacity: nothing when
opacity is at most 0.01 (the early return), else the looked-up bitmap with the
base fallback; none means nothing is drawn (the if (img) guard fails). -/
def renderFrameImage {Img : Type} (poseImages : String → Option Img) (pose : String)
    (opacity : ℚ) : Option Img :=
  if opacity ≤ 1 / 100 then none
  else chooseBitmap poseImages pose

/-! ## Mirror utility as a promise (part_001 lines 125-144) -/

/-- The ways the mirrorFrame promise can end up. -/
inductive PromiseOutcome (α : Type)
  | resolved (value : α)
  | rejected (message : String)
  | pending
deriving DecidableEq, Repr

/-- mirrorFrame: its executor registers only an onload handler (no onerror), so
the promise settles only when the image decode fires onload; then it resolves
the flipped redraw encoded at JPEG quality 0.8 when a 2d context is available,
else the original data URL. flipJpeg q abstracts drawing the horizontal flip
onto the canvas and encoding it at quality q; imageLoads is whether the decode
of dataUrl fires onload; ctxAvailable whether getContext succeeds. -/
def mirrorFrame (flipJpeg : ℚ → String → String) (dataUrl : String)
    (imageLoads : Bool) (ctxAvailable : Bool) : PromiseOutcome String :=
  if imageLoads then
    if ctxAvailable then .resolved (flipJpeg (8 / 10) dataUrl)
    else .resolved dataUrl
  else .pending

/-! ## Helper lemmas -/

/-- frameGroup always yields the classified frame, so a sliced sheet never
produces an empty group. -/
theorem frameGroup_ne_nil (role : SheetRole) (category : SubjectCategory) (i : Nat)
    (frameData : String) (closeupRoll : Bool) (mirrored : String → String) :
    frameGroup role category i frameData closeupRoll mirrored ≠ [] := by
  unfold frameGroup
  dsimp only
  split <;> (try split) <;> simp

/-- A successful environment response makes generateSingleSheet return a
nonempty frame list and the response's sheet payload. -/
theorem generateSingleSheet_success (role : SheetRole) (category : SubjectCategory)
    (styleRef : Option String) (env : GenEnv) (s : SheetSuccess)
    (h : env { role := role, styleRef := styleRef } = some s) :
    (generateSingleSheet role category styleRef env).1 ≠ [] ∧
      (generateSingleSheet role category styleRef env).2 = some s.sheetData := by
  have hg := frameGroup_ne_nil role category 0 (s.rawFrame 0) (s.closeupRoll 0) s.mirrored
  obtain ⟨x, hx⟩ := List.exists_mem_of_ne_nil _ hg
  unfold generateSingleSheet
  rw [h]
  refine ⟨fun hcon => ?_, rfl⟩
  have hmem : x ∈ (List.range (4 * 4)).flatMap
      (fun i => frameGroup role category i (s.rawFrame i) (s.closeupRoll i) s.mirrored) :=
    List.mem_flatMap.mpr ⟨0, List.mem_range.mpr (by norm_num), hx⟩
  simp only at hcon
  rw [hcon] at hmem
  exact absurd hmem (List.not_mem_nil x)

/-- The frame-appending fold of generateDanceFrames only ever appends to its
accumulator. -/
theorem appendResults_extra (l : List (List GeneratedFrame × Option String))
    (acc : List GeneratedFrame) :
    ∃ extra, l.foldl (fun a res => if res.1.length > 0 then a ++ res.1 else a) acc
      = acc ++ extra := by
  induction l generalizing acc with
  | nil => exact ⟨[], by simp⟩
  | cons x xs ih =>
      simp only [List.foldl_cons]
      by_cases hx : x.1.length > 0
      · rw [if_pos hx]
        obtain ⟨e, he⟩ := ih (acc ++ x.1)
        exact ⟨x.1 ++ e, by rw [he, List.append_assoc]⟩
      · rw [if_neg hx]
        exact ih acc

/-! ## Claim C2 -/

/-- Claim C2: in every mode (turbo, quality, super), when the base sheet yields
zero frames or no sheet image, generateDanceFrames fails with the base
generation error and its request trace is the single base request, so no alt
or flourish expansion request is issued. -/
theorem baseFailureAbortsAllModes (motionPrompt : String) (useTurbo superMode : Bool)
    (explicitCategory : Option SubjectCategory) (env : GenEnv)
    (h : (generateSingleSheet .base (resolveCategory explicitCategory motionPrompt) none env).1 = []
       ∨ (generateSingleSheet .base (resolveCategory explicitCategory motionPrompt) none env).2 = none) :
    (generateDanceFrames motionPrompt useTurbo superMode explicitCategory env).result
        = .error "Base generation failed."
    ∧ (generateDanceFrames motionPrompt useTurbo superMode explicitCategory env).trace
        = [[{ role := .base, styleRef := none }]] := by
  have hguard :
      (generateSingleSheet .base (resolveCategory explicitCategory motionPrompt) none env).1.length = 0
      ∨ (generateSingleSheet .base (resolveCategory explicitCategory motionPrompt) none env).2 = none := by
    rcases h with h | h
    · exact Or.inl (by simp [h])
    · exact Or.inr h
  simp only [generateDanceFrames]
  rw [if_pos hguard]
  exact ⟨rfl, rfl⟩

/-- Witness for claim C2 at a concrete failing environment in quality mode. -/
theorem baseFailureAbortsAllModesWitness :
    (generateDanceFrames "" false false none envFail).result
        = .error "Base generation failed." :=
  (baseFailureAbortsAllModes "" false false none envFail (Or.inl rfl)).1

/-! ## Claim C1 -/

/-- Claim C1 counterexample: a quality-mode call (useTurbo and superMode both
false) whose base sheet fails issues exactly one remote sheet request, not the
two the claim requires of every quality-mode call. -/
theorem qualityModeOneRequestOnBaseFailure :
    (generateDanceFrames "" false false none envFail).trace.flatten.length = 1
    ∧ (generateDanceFrames "" false false none envFail).trace.flatten.length ≠ 2 := by
  constructor
  · rfl
  · decide

/-- Claim C1 (amended): turbo mode (useTurbo, not superMode) issues exactly the
one base request; and whenever the base request succeeds, quality mode (neither
flag) awaits base then issues exactly one alt request carrying the base sheet
as style reference, and super mode issues exactly the base request followed by
one concurrent batch of the alt and flourish requests, both carrying the base
sheet as style reference. Batches of the trace are awaited in order; requests
inside one batch are issued concurrently. -/
theorem sheetRequestPlanByMode (motionPrompt : String) (useTurbo superMode : Bool)
    (explicitCategory : Option SubjectCategory) (env : GenEnv) :
    (useTurbo = true → superMode = false →
      (generateDanceFrames motionPrompt useTurbo superMode explicitCategory env).trace
        = [[{ role := .base, styleRef := none }]])
    ∧ (∀ s : SheetSuccess, env { role := .base, styleRef := none } = some s →
        (superMode = true →
          (generateDanceFrames motionPrompt useTurbo superMode explicitCategory env).trace
            = [[{ role := .base, styleRef := none }],
               [{ role := .alt, styleRef := some ("data:image/jpeg;base64," ++ s.sheetData) },
                { role := .flourish, styleRef := some ("data:image/jpeg;base64," ++ s.sheetData) }]])
        ∧ (useTurbo = false → superMode = false →
          (generateDanceFrames motionPrompt useTurbo superMode explicitCategory env).trace
            = [[{ role := .base, styleRef := none }],
               [{ role := .alt, styleRef := some ("data:image/jpeg;base64," ++ s.sheetData) }]])) := by
  constructor
  · intro ht hs
    subst ht hs
    cases henv : env { role := .base, styleRef := none } with
    | none =>
        have hfail : (generateSingleSheet .base
            (resolveCategory explicitCategory motionPrompt) none env).1 = [] := by
          unfold generateSingleSheet
          rw [henv]
        exact (baseFailureAbortsAllModes motionPrompt true false explicitCategory env
          (Or.inl hfail)).2
    | some s =>
        obtain ⟨hne, hsome⟩ := generateSingleSheet_success .base
          (resolveCategory explicitCategory motionPrompt) none env s henv
        simp only [generateDanceFrames]
        rw [if_neg (by push_neg; exact ⟨by simpa using hne, by simp [hsome]⟩)]
        rw [apply_ite GenOutcome.trace, ite_self]
        simp
  · intro s henv
    obtain ⟨hne, hsome⟩ := generateSingleSheet_success .base
      (resolveCategory explicitCategory motionPrompt) none env s henv
    constructor
    · intro hs
      subst hs
      simp only [generateDanceFrames]
      rw [if_neg (by push_neg; exact ⟨by simpa using hne, by simp [hsome]⟩)]
      rw [apply_ite GenOutcome.trace, ite_self]
      simp [hsome]
    · intro ht hs
      subst ht hs
      simp only [generateDanceFrames]
      rw [if_neg (by push_neg; exact ⟨by simpa using hne, by simp [hsome]⟩)]
      rw [apply_ite GenOutcome.trace, ite_self]
      simp [hsome]

/-! ## Claim C10 -/

/-- Claim C10: whenever the base sheet yields at least one frame and a sheet
image, generateDanceFrames returns success in every mode and against every
expansion outcome, and its frames extend the base-sheet frames; the trailing
no-valid-frames error branch is unreachable after base success, so a failed alt
or flourish expansion can never fail the overall call. -/
theorem baseSuccessAlwaysSucceeds (motionPrompt : String) (useTurbo superMode : Bool)
    (explicitCategory : Option SubjectCategory) (env : GenEnv)
    (h1 : (generateSingleSheet .base (resolveCategory explicitCategory motionPrompt) none env).1 ≠ [])
    (h2 : (generateSingleSheet .base (resolveCategory explicitCategory motionPrompt) none env).2 ≠ none) :
    ∃ frames extra,
      (generateDanceFrames motionPrompt useTurbo superMode explicitCategory env).result
        = .ok (frames, resolveCategory explicitCategory motionPrompt)
      ∧ frames
        = (generateSingleSheet .base (resolveCategory explicitCategory motionPrompt) none env).1
          ++ extra := by
  simp only [generateDanceFrames]
  rw [if_neg (by push_neg; exact ⟨by simpa using h1, h2⟩)]
  obtain ⟨extra, hextra⟩ := appendResults_extra
    (((if superMode = true then
        [({ role := .alt, styleRef := some ("data:image/jpeg;base64," ++
            (generateSingleSheet .base (resolveCategory explicitCategory motionPrompt) none env).2.getD "") } : SheetRequest),
         { role := .flourish, styleRef := some ("data:image/jpeg;base64," ++
            (generateSingleSheet .base (resolveCategory explicitCategory motionPrompt) none env).2.getD "") }]
      else if useTurbo = false then
        [({ role := .alt, styleRef := some ("data:image/jpeg;base64," ++
            (generateSingleSheet .base (resolveCategory explicitCategory motionPrompt) none env).2.getD "") } : SheetRequest)]
      else []).map fun r =>
        generateSingleSheet r.role (resolveCategory explicitCategory motionPrompt) r.styleRef env))
    (generateSingleSheet .base (resolveCategory explicitCategory motionPrompt) none env).1
  rw [hextra]
  rw [if_neg (by simp [h1])]
  exact ⟨_, extra, rfl, rfl⟩

/-- Witness for claim C10 at a concrete always-succeeding environment in super
mode. -/
theorem baseSuccessAlwaysSucceedsWitness :
    ∃ frames extra,
      (generateDanceFrames "" false true none envOk).result
        = .ok (frames, resolveCategory none "")
      ∧ frames = (generateSingleSheet .base (resolveCategory none "") none envOk).1 ++ extra :=
  baseSuccessAlwaysSucceeds "" false true none envOk
    (generateSingleSheet_success .base (resolveCategory none "") none envOk sheetSuccess1 rfl).1
    (by rw [(generateSingleSheet_success .base (resolveCategory none "") none envOk
        sheetSuccess1 rfl).2]; exact Option.some_ne_none _)

/-! ## Claim C4 -/

/-- Every frame a grid cell produces (the classified frame and, when present,
its mirror) carries the energy the cell's row dictates. -/
theorem frameGroup_energy (role : SheetRole) (category : SubjectCategory) (i : Nat)
    (frameData : String) (closeupRoll : Bool) (mirrored : String → String) (hi : i < 16) :
    ∀ f ∈ frameGroup role category i frameData closeupRoll mirrored,
      f.energy = (if i / 4 = 0 then EnergyLevel.low
        else if i / 4 = 1 then .mid else if i / 4 = 2 then .mid
        else if i / 4 = 3 then .high else .mid) := by
  intro f hf
  interval_cases i <;> cases category <;> cases closeupRoll <;>
    simp [frameGroup] at hf <;>
    rcases hf with rfl | rfl <;> rfl

/-- Claim C4: on every successfully generated sheet of any role and category,
the sheet's frames are exactly the 16 per-cell groups in grid order; every
frame of the group at grid index i has energy low on row 0, mid on rows 1 and
2, high on row 3; and for the CHARACTER category every row-1 and row-2 body
frame comes with exactly one mirrored duplicate whose pose swaps the direction
token and appends the mirror suffix, and whose energy, type and role equal the
source frame's, the two differing only in url and pose. -/
theorem sheetRowEnergyAndMirror (role : SheetRole) (category : SubjectCategory)
    (styleRef : Option String) (env : GenEnv) (s : SheetSuccess)
    (henv : env { role := role, styleRef := styleRef } = some s)
    (i : Nat) (hi : i < 16) :
    ((generateSingleSheet role category styleRef env).1
        = (List.range 16).flatMap fun j =>
            frameGroup role category j (s.rawFrame j) (s.closeupRoll j) s.mirrored)
    ∧ (∀ f ∈ frameGroup role category i (s.rawFrame i) (s.closeupRoll i) s.mirrored,
          (i / 4 = 0 → f.energy = .low)
        ∧ ((i / 4 = 1 ∨ i / 4 = 2) → f.energy = .mid)
        ∧ (i / 4 = 3 → f.energy = .high))
    ∧ (category = .CHARACTER → (i / 4 = 1 ∨ i / 4 = 2) →
        ∃ f m, frameGroup role category i (s.rawFrame i) (s.closeupRoll i) s.mirrored = [f, m]
          ∧ m.energy = f.energy ∧ m.type = f.type ∧ m.role = f.role
          ∧ f.url = s.rawFrame i ∧ m.url = s.mirrored (s.rawFrame i)
          ∧ f.pose = roleName role ++ "_" ++ toString i
              ++ (if i / 4 = 1 then "_left" else "_right")
          ∧ m.pose = roleName role ++ "_" ++ toString i
              ++ (if i / 4 = 1 then "_right_mirror" else "_left_mirror")) := by
  refine ⟨?_, ?_, ?_⟩
  · unfold generateSingleSheet
    rw [henv]
  · intro f hf
    have he := frameGroup_energy role category i (s.rawFrame i) (s.closeupRoll i) s.mirrored hi f hf
    refine ⟨fun h0 => ?_, fun h12 => ?_, fun h3 => ?_⟩
    · simp [he, h0]
    · rcases h12 with h | h <;> simp [he, h]
    · simp [he, h3]
  · intro hcat hrow
    subst hcat
    interval_cases i <;>
      first
        | exact absurd hrow (by decide)
        | (cases role <;> exact ⟨_, _, rfl, rfl, rfl, rfl, rfl, rfl, rfl, rfl⟩)

/-- Witness for claim C4 at a concrete successful sheet, grid index 5 (row 1)
of a CHARACTER base sheet. -/
theorem sheetRowEnergyAndMirrorWitness :
    ∃ f m,
      frameGroup .base .CHARACTER 5 (sheetSuccess1.rawFrame 5) (sheetSuccess1.closeupRoll 5)
          sheetSuccess1.mirrored = [f, m]
      ∧ m.energy = f.energy ∧ m.type = f.type ∧ m.role = f.role
      ∧ f.pose = "base_5_left" ∧ m.pose = "base_5_right_mirror" := by
  obtain ⟨f, m, hg, he, ht, hr, hfu, hmu, hfp, hmp⟩ :=
    (sheetRowEnergyAndMirror .base .CHARACTER none envOk sheetSuccess1 rfl 5
      (by norm_num)).2.2 rfl (Or.inl rfl)
  exact ⟨f, m, hg, he, ht, hr, by simpa using hfp, by simpa using hmp⟩

/-! ## Claim C3 -/

/-- Claim C3: for every decoded sheet image, the 4x4 slicer crops within the
largest centered square of edge min(width, height), yields exactly 16 cells in
row-major order (index = row*4 + col) whose source rectangle sits at the cell
origin plus the 8-percent-per-side inset, and every output frame's width and
height are the floor of 0.84 times (min(width, height)/4), within 1 px of that
value. -/
theorem sliceGridGeometry (w h : ℚ) (r c : Nat) (hr : r < 4) (hc : c < 4) :
    (sliceSpriteSheetRects w h).length = 16
    ∧ (sliceSpriteSheetRects w h).getD (r * 4 + c) (0, 0, 0, 0)
        = ((w - min w h) / 2 + (c : ℚ) * (min w h / 4) + (8 / 100) * (min w h / 4),
           (h - min w h) / 2 + (r : ℚ) * (min w h / 4) + (8 / 100) * (min w h / 4),
           (84 / 100) * (min w h / 4), (84 / 100) * (min w h / 4))
    ∧ (sliceSpriteSheetOutSize w h).1 = ⌊(84 / 100) * (min w h / 4)⌋
    ∧ (sliceSpriteSheetOutSize w h).2 = ⌊(84 / 100) * (min w h / 4)⌋
    ∧ |((sliceSpriteSheetOutSize w h).1 : ℚ) - (84 / 100) * (min w h / 4)| ≤ 1 := by
  have hfloor : ∀ x : ℚ, |((⌊x⌋ : ℚ)) - x| ≤ 1 := by
    intro x
    have h1 := Int.floor_le x
    have h2 := Int.lt_floor_add_one x
    rw [abs_sub_comm, abs_of_nonneg (by linarith)]
    linarith
  refine ⟨rfl, ?_, ?_, ?_, ?_⟩
  · interval_cases r <;> interval_cases c <;>
      simp [sliceSpriteSheetRects, List.range_succ] <;>
      and_intros <;> ring
  · show (⌊min w h / 4 * (1 - 2 * (8 / 100))⌋ : ℤ) = ⌊(84 / 100) * (min w h / 4)⌋
    ring_nf
  · show (⌊min w h / 4 * (1 - 2 * (8 / 100))⌋ : ℤ) = ⌊(84 / 100) * (min w h / 4)⌋
    ring_nf
  · have : (sliceSpriteSheetOutSize w h).1 = ⌊(84 / 100) * (min w h / 4)⌋ := by
      show (⌊min w h / 4 * (1 - 2 * (8 / 100))⌋ : ℤ) = ⌊(84 / 100) * (min w h / 4)⌋
      ring_nf
    rw [this]
    exact hfloor _

/-- Witness for claim C3 at a concrete 1024 by 768 sheet, row 2, column 3. -/
theorem sliceGridGeometryWitness :
    (sliceSpriteSheetRects 1024 768).length = 16
    ∧ |((sliceSpriteSheetOutSize 1024 768).1 : ℚ)
        - (84 / 100) * (min (1024 : ℚ) 768 / 4)| ≤ 1 := by
  have hmain := sliceGridGeometry 1024 768 2 3 (by norm_num) (by norm_num)
  exact ⟨hmain.1, hmain.2.2.2.2⟩

/-! ## Claim C5 -/

/-- Claim C5 counterexample: a nonempty frame list consisting of one closeup
frame leaves all three energy pools empty after the fallback pass, because the
low-pool fallback requires the first loaded frame to be a body frame. -/
theorem closeupOnlyFramesLeaveEmptyPools :
    (([⟨"u", "p", .high, .closeup, .base⟩] : List GeneratedFrame) ≠ [])
    ∧ (sortIntoPools [⟨"u", "p", .high, .closeup, .base⟩]).low = []
    ∧ (sortIntoPools [⟨"u", "p", .high, .closeup, .base⟩]).mid = []
    ∧ (sortIntoPools [⟨"u", "p", .high, .closeup, .base⟩]).high = [] := by
  refine ⟨by simp, rfl, rfl, rfl⟩

/-- The low pool of the raw sorting fold only ever grows. -/
theorem sortStep_low_extra (l : List GeneratedFrame) (p : EnergyPools) :
    ∃ extra, (l.foldl sortStep p).low = p.low ++ extra := by
  induction l generalizing p with
  | nil => exact ⟨[], by simp⟩
  | cons f fs ih =>
      simp only [List.foldl_cons]
      obtain ⟨e2, he2⟩ := ih (sortStep p f)
      have hstep : ∃ e0, (sortStep p f).low = p.low ++ e0 := by
        unfold sortStep
        by_cases hc : f.type = .closeup
        · rw [if_pos hc]
          exact ⟨[], by simp⟩
        · rw [if_neg hc]
          cases he : f.energy
          · exact ⟨[f.pose], rfl⟩
          · exact ⟨[], by simp⟩
          · exact ⟨[], by simp⟩
      obtain ⟨e0, he0⟩ := hstep
      exact ⟨e0 ++ e2, by rw [he2, he0, List.append_assoc]⟩

/-- A body frame with low energy anywhere in the list makes the raw low pool
nonempty. -/
theorem sortStep_low_mem (l : List GeneratedFrame) (p : EnergyPools)
    (f : GeneratedFrame) (hf : f ∈ l) (hb : f.type = .body) (he : f.energy = .low) :
    (l.foldl sortStep p).low ≠ [] := by
  induction l generalizing p with
  | nil => cases hf
  | cons g gs ih =>
      simp only [List.foldl_cons]
      rcases List.mem_cons.mp hf with rfl | hmem
      · obtain ⟨extra, hex⟩ := sortStep_low_extra gs (sortStep p f)
        rw [hex]
        have hone : (sortStep p f).low = p.low ++ [f.pose] := by
          unfold sortStep
          rw [if_neg (by rw [hb]; intro hcon; cases hcon), he]
        rw [hone]
        simp
      · exact ih _ hmem

/-- Claim C5 (amended): after the pools are sorted with the low, mid, high
fallback pass, none of the three pools is empty, provided the loaded frame
list is nonempty and either its first frame is a body frame or some frame in
it is a body frame of low energy. A nonempty list of closeup-only frames
leaves every pool empty. -/
theorem poolsNonemptyWithBodyFrame (framesToLoad : List GeneratedFrame)
    (hne : framesToLoad ≠ [])
    (hbody : (framesToLoad.head hne).type = .body
      ∨ ∃ f ∈ framesToLoad, f.type = .body ∧ f.energy = .low) :
    (sortIntoPools framesToLoad).low ≠ []
    ∧ (sortIntoPools framesToLoad).mid ≠ []
    ∧ (sortIntoPools framesToLoad).high ≠ [] := by
  obtain ⟨f0, fs, rfl⟩ := List.exists_cons_of_ne_nil hne
  have hbody2 : f0.type = .body
      ∨ ∃ f ∈ f0 :: fs, f.type = .body ∧ f.energy = .low := hbody
  unfold sortIntoPools
  dsimp only
  set S := (f0 :: fs).foldl sortStep { low := [], mid := [], high := [], closeups := [] }
    with hS
  have hlow : (if S.low = [] ∧ f0.type = .body
      then { S with low := S.low ++ [f0.pose] } else S).low ≠ [] := by
    rcases hbody2 with hb | ⟨f, hmem, hb, he⟩
    · by_cases hempty : S.low = []
      · rw [if_pos ⟨hempty, hb⟩]
        simp
      · rw [if_neg (fun hc => hempty hc.1)]
        exact hempty
    · have hne2 : S.low ≠ [] := by
        rw [hS]
        exact sortStep_low_mem (f0 :: fs) _ f hmem hb he
      split
      · simp
      · exact hne2
  set A := (if S.low = [] ∧ f0.type = .body
      then { S with low := S.low ++ [f0.pose] } else S) with hA
  have hmid : (if A.mid = [] then { A with mid := A.low } else A).mid ≠ [] := by
    split
    · simpa using hlow
    · assumption
  set B := (if A.mid = [] then { A with mid := A.low } else A) with hB
  have hlowB : B.low ≠ [] := by
    rw [hB]
    split <;> simpa using hlow
  refine ⟨?_, ?_, ?_⟩
  · split <;> simpa using hlowB
  · split <;> simpa using hmid
  · split
    · simpa using hmid
    · assumption

/-- Witness for claim C5 at a single low-energy body frame. -/
theorem poolsNonemptyWithBodyFrameWitness :
    (sortIntoPools [⟨"u", "base_0", .low, .body, .base⟩]).low ≠ []
    ∧ (sortIntoPools [⟨"u", "base_0", .low, .body, .base⟩]).mid ≠ []
    ∧ (sortIntoPools [⟨"u", "base_0", .low, .body, .base⟩]).high ≠ [] :=
  poolsNonemptyWithBodyFrame [⟨"u", "base_0", .low, .body, .base⟩]
    (by simp) (Or.inl rfl)


/-! ## Claim C6 -/

/-- Any single event leaves the invariant that a playing state has an analyser:
play and mic toggles create the analyser first, and an audio URL change stops
playback. -/
theorem audioStep_invariant (s : AudioUIState) (e : AudioEvent) :
    (audioStep s e).isPlaying = true → (audioStep s e).analyserPresent = true := by
  cases e with
  | togglePlay => intro _; rfl
  | toggleMic granted =>
      simp only [audioStep]
      split
      · intro _; rfl
      · split
        · intro _; rfl
        · intro _; rfl
  | audioUrlChange present => intro hcon; cases hcon

/-- Along any event sequence from a state satisfying the invariant, a playing
state always has the analyser node. -/
theorem audioFold_invariant (evs : List AudioEvent) :
    ∀ s : AudioUIState, (s.isPlaying = true → s.analyserPresent = true) →
      ((evs.foldl audioStep s).isPlaying = true
        → (evs.foldl audioStep s).analyserPresent = true) := by
  induction evs with
  | nil => intro s h; exact h
  | cons e rest ih =>
      intro s _
      exact ih (audioStep s e) (audioStep_invariant s e)

/-- Claim C6 (code bug evidence): in every state reachable from the initial
component state, playback implies the analyser node exists, so the per-tick
band computation always takes the analyser branch while playing; in particular
after pressing play once with no audio file and no microphone the bands are
read from the (silent) analyser spectrum and come out zero, while the claimed
124 BPM fallback clock would give bass 1 at a beat start. The fallback-clock
branch of the tick is therefore unreachable while playing. -/
theorem fallbackClockUnreachableWhilePlaying :
    (∀ (evs : List AudioEvent) (b : Bool),
        ((evs.foldl audioStep (audioInit b)).isPlaying = true
          → (evs.foldl audioStep (audioInit b)).analyserPresent = true))
    ∧ audioStep (audioInit false) AudioEvent.togglePlay = audioPlayingNoSource
    ∧ audioPlayingNoSource.isPlaying = true
    ∧ audioPlayingNoSource.audioUrl = false
    ∧ audioPlayingNoSource.micActive = false
    ∧ (∀ (spectrum : Nat → ℚ) (time rand : ℚ),
        animateAudioBands audioPlayingNoSource spectrum time rand
          = (spectrumBass spectrum, spectrumMid spectrum, spectrumHigh spectrum))
    ∧ animateAudioBands audioPlayingNoSource (fun _ => 0) 0 0 = (0, 0, 0)
    ∧ fallbackClock 0 0 = (1, 0, 0) := by
  refine ⟨?_, ?_, ?_, ?_, ?_, ?_, ?_, ?_⟩
  · intro evs b
    exact audioFold_invariant evs _ (fun hcon => by cases hcon)
  · rfl
  · rfl
  · rfl
  · rfl
  · intro spectrum time rand
    rfl
  · norm_num [animateAudioBands, audioPlayingNoSource, spectrumBass, spectrumMid,
      spectrumHigh]
  · norm_num [fallbackClock, jsMod]

/-! ## Claim C7 -/

/-- The beat-hit branch stamps the switch time with the tick timestamp. -/
theorem brainBeatBranch_lastSwitch (s : BrainState) (inp : BrainInput) :
    (brainBeatBranch s inp).lastSwitchTime = inp.now := by
  unfold brainBeatBranch
  dsimp only
  repeat' split
  all_goals rfl

/-- The idle fallback stamps the switch time with the tick timestamp. -/
theorem brainIdleBranch_lastSwitch (s : BrainState) (inp : BrainInput) :
    (brainIdleBranch s inp).lastSwitchTime = inp.now := by
  unfold brainIdleBranch
  dsimp only
  repeat' split
  all_goals rfl

/-- The snare branch never touches the switch time. -/
theorem brainSnareBranch_lastSwitch (t : BrainState) (inp : BrainInput) :
    (brainSnareBranch t inp).lastSwitchTime = t.lastSwitchTime := by
  unfold brainSnareBranch
  dsimp only
  repeat' split
  all_goals rfl

/-- The burst forced cut stamps the switch time with the tick timestamp. -/
theorem brainBurstBranch_lastSwitch (t : BrainState) (inp : BrainInput) :
    (brainBurstBranch t inp).lastSwitchTime = inp.now := by
  unfold brainBurstBranch
  dsimp only
  repeat' split
  all_goals rfl

/-- Claim C7: in every tick, a recorded pose switch (beat hit, idle fallback or
burst forced cut) can only happen once the pose-lock window since the previous
switch has elapsed: more than 60 ms while burst mode is active at the tick,
more than 150 ms otherwise. A switching tick stamps the switch time with the
tick's timestamp and a non-switching tick leaves it unchanged, so along any
tick sequence two consecutive switches are always separated by more than the
lock window in force at the later one. -/
theorem poseLockWindowRespected (s : BrainState) (inp : BrainInput) :
    ((animateBrain s inp).2 = true →
        inp.now - s.lastSwitchTime
          > (if inp.now < s.burstModeUntil then (60 : ℚ) else 150)
        ∧ (animateBrain s inp).1.lastSwitchTime = inp.now)
    ∧ ((animateBrain s inp).2 = false →
        (animateBrain s inp).1.lastSwitchTime = s.lastSwitchTime) := by
  unfold animateBrain
  dsimp only
  by_cases hplay : inp.isPlaying = false
  · rw [if_pos hplay]
    exact ⟨fun hcon => Bool.noConfusion hcon, fun _ => rfl⟩
  · rw [if_neg hplay]
    by_cases hd : inp.now < s.burstModeUntil
        ∧ inp.now - s.lastSwitchTime > (if inp.now < s.burstModeUntil then (60 : ℚ) else 150)
    · rw [if_pos hd]
      refine ⟨fun _ => ⟨hd.2, brainBurstBranch_lastSwitch _ _⟩,
        fun hcon => Bool.noConfusion hcon⟩
    · rw [if_neg hd]
      by_cases hbeat : inp.bass > 35 / 100
          ∧ inp.now - s.lastSwitchTime > (if inp.now < s.burstModeUntil then (60 : ℚ) else 150)
      · rw [if_pos hbeat]
        refine ⟨fun _ => ⟨hbeat.2, ?_⟩, fun hcon => Bool.noConfusion hcon⟩
        rw [brainSnareBranch_lastSwitch, brainBeatBranch_lastSwitch]
      · rw [if_neg hbeat]
        by_cases hidle : inp.now - s.lastBeatTime > 1500
            ∧ inp.now - s.lastSwitchTime > (if inp.now < s.burstModeUntil then (60 : ℚ) else 150)
            ∧ inp.now - s.lastSwitchTime > 1000
        · rw [if_pos hidle]
          refine ⟨fun _ => ⟨hidle.2.1, ?_⟩, fun hcon => Bool.noConfusion hcon⟩
          rw [brainSnareBranch_lastSwitch, brainIdleBranch_lastSwitch]
        · rw [if_neg hidle]
          refine ⟨fun hcon => Bool.noConfusion hcon, fun _ => ?_⟩
          rw [brainSnareBranch_lastSwitch]

/-! ## Claim C8 -/

/-- Claim C8: whenever the pose drawn by the render routine has no bitmap in
the loaded pose map, the routine draws whatever the map stores under the base
pose in its place (and, at a drawable opacity, draws nothing only when the
base entry is missing too). -/
theorem missingPoseFallsBackToBase {Img : Type} (poseImages : String → Option Img)
    (pose : String) (opacity : ℚ) (hmiss : poseImages pose = none)
    (hop : 1 / 100 < opacity) :
    renderFrameImage poseImages pose opacity = poseImages "base" := by
  unfold renderFrameImage chooseBitmap
  rw [if_neg (not_le.mpr hop), hmiss]

/-- Witness for claim C8: a map holding only the base pose, looked up at a
missing pose, draws the base bitmap. -/
theorem missingPoseFallsBackToBaseWitness :
    renderFrameImage (fun p => if p = "base" then some 1 else none) "alt_3" 1
      = some (1 : Nat) :=
  missingPoseFallsBackToBase (fun p => if p = "base" then some 1 else none)
    "alt_3" 1 (by decide) (by norm_num)

/-! ## Claim C9 -/

/-- Claim C9 counterexample: on an input data URL whose image decode never
fires onload (the executor registers no onerror handler), the mirrorFrame
promise never settles, so mirrorFrame does not complete for every input. -/
theorem mirrorFrameHangsOnLoadFailure :
    mirrorFrame (fun _ s => s) "data:image/jpeg;base64,notdecodable" false true
      = PromiseOutcome.pending := rfl

/-- Claim C9 (amended): for every input frame image whose decode fires onload,
mirrorFrame resolves: with the horizontally flipped redraw encoded at JPEG
quality 0.8 when a drawing context is available, and with the original image
unmirrored otherwise; and on no input does it ever reject. Only an input whose
image decode fails leaves the promise pending forever. -/
theorem mirrorFrameResolvesWhenLoaded (flipJpeg : ℚ → String → String)
    (dataUrl : String) (ctxAvailable : Bool) :
    (mirrorFrame flipJpeg dataUrl true ctxAvailable
        = .resolved (if ctxAvailable then flipJpeg (8 / 10) dataUrl else dataUrl))
    ∧ (∀ (imageLoads : Bool) (message : String),
        mirrorFrame flipJpeg dataUrl imageLoads ctxAvailable ≠ .rejected message) := by
  constructor
  · cases ctxAvailable
    · rfl
    · rfl
  · intro imageLoads message
    cases imageLoads <;> cases ctxAvailable <;>
      intro hcon <;> simp [mirrorFrame] at hcon
